import Mathlib

/-!
Verification of the stock-ledger / inventory-consistency engine of the
`gestor-de-estoque` repository.

The embedding below translates the TypeScript sources:
* `backend/shared/src/types/errors.ts` — the error taxonomy (`AppError` and its
  subclasses),
* `backend/shared/src/types/index.ts` — the data model (`Product`,
  `CreateProductRequest`, `UpdateProductRequest`, `StockMovement`),
* `ProductService` (the service class holding `createProduct`,
  `getProductById`, `getProductBySKU`, `getProductByBarcode`, `updateProduct`,
  `deleteProduct`, `updateStock`, `validateUniqueSKU`, `validateUniqueBarcode`).

Modelling conventions:
* Firestore is modelled as a `Store` holding the `products` collection (a list
  of documents keyed by `Product.id`), the `stockMovements` collection and the
  audit log.  `doc(id).set(x)` is `setDoc` (replace-or-insert by key),
  `doc(id).get` is `List.find?` on the key.
* `Timestamp` is a `Nat`; TypeScript `number` fields are `Int` (no claim
  performs fractional arithmetic on them).
* JavaScript `undefined` for optional fields is `Option.none`.  Because
  `UpdateProductRequest.inventory` has type `Omit<ProductInventory,
  'currentStock'>`, an object-spread update that carries an `inventory` patch
  replaces the whole stored `inventory` object with one that has **no**
  `currentStock` key; therefore the stored `currentStock` is `Option Int`,
  with `none` standing for the JavaScript `undefined` that results.  The
  source's truthiness tests (`if (productData.barcode)`,
  `currentStock > 0`) are translated by `truthy` and `jsGtZero`.
* The asynchronous service methods are state-passing functions
  `Store → ... → Store × Except AppError α`; a thrown error is `Except.error`
  and the returned `Store` is the durable state after the call, including
  writes that committed before an error was thrown (Firestore writes are not
  transactional across the separate `await`s of the source).
* `StockAlertService.checkStockLevels` and `AuditService.log` are collaborator
  calls whose sources are outside the provided tree; in `updateStock` their
  outcome is injected through the parameters `alertErr`/`auditErr`
  (`none` = the call succeeds, `some e` = the call throws `e`, which the
  source's `catch` block re-throws).  In the other service methods they are
  modelled as succeeding, which is the only behaviour any claim about those
  methods depends on.
-/

namespace Gestor

/-! ## Error taxonomy (`errors.ts`) -/

/-- `AppError` base class of `errors.ts`: message, HTTP status code,
operational flag, machine-readable code, optional details. -/
structure AppError where
  message : String
  statusCode : Nat
  isOperational : Bool
  code : Option String
  details : Option String
deriving Repr, DecidableEq

/-- `class ValidationError extends AppError` — `super(message, 400, true, 'VALIDATION_ERROR', details)`. -/
def ValidationError (message : String) (details : Option String := none) : AppError :=
  { message := message, statusCode := 400, isOperational := true
    code := some "VALIDATION_ERROR", details := details }

/-- `class NotFoundError extends AppError` — message is
`"{resource} with id '{id}' not found"` when an id is supplied. -/
def NotFoundError (resource : String) (id : Option String := none) : AppError :=
  let message := match id with
    | some i => s!"{resource} with id \x27{i}\x27 not found"
    | none => s!"{resource} not found"
  { message := message, statusCode := 404, isOperational := true
    code := some "NOT_FOUND", details := none }

/-- `class UnauthorizedError extends AppError`. -/
def UnauthorizedError (message : String := "Unauthorized") : AppError :=
  { message := message, statusCode := 401, isOperational := true
    code := some "UNAUTHORIZED", details := none }

/-- `class ForbiddenError extends AppError`. -/
def ForbiddenError (message : String := "Forbidden") : AppError :=
  { message := message, statusCode := 403, isOperational := true
    code := some "FORBIDDEN", details := none }

/-- `class ConflictError extends AppError` — `super(message, 409, true, 'CONFLICT', details)`. -/
def ConflictError (message : String) (details : Option String := none) : AppError :=
  { message := message, statusCode := 409, isOperational := true
    code := some "CONFLICT", details := details }

/-- `class InternalServerError extends AppError`. -/
def InternalServerError (message : String := "Internal Server Error")
    (details : Option String := none) : AppError :=
  { message := message, statusCode := 500, isOperational := false
    code := some "INTERNAL_SERVER_ERROR", details := details }

/-- `class DatabaseError extends AppError` — `super(message, 500, false, 'DATABASE_ERROR', details)`. -/
def DatabaseError (message : String) (details : Option String := none) : AppError :=
  { message := message, statusCode := 500, isOperational := false
    code := some "DATABASE_ERROR", details := details }

/-! ## Data model (`types/index.ts`) -/

/-- `ProductPricing`. -/
structure ProductPricing where
  costPrice : Int
  salePrice : Int
  currency : String
  taxRate : Int
  markup : Int
deriving Repr, DecidableEq

/-- `ProductInventory`.  `currentStock` is `Option Int` because an
`updateProduct` whose patch carries an `inventory` object (typed
`Omit<ProductInventory, 'currentStock'>`) replaces the stored object wholesale
and leaves `currentStock` undefined. -/
structure ProductInventory where
  currentStock : Option Int
  minStock : Int
  maxStock : Int
  reorderPoint : Int
  unit : String
  location : String
deriving Repr, DecidableEq

/-- `ProductSpecifications` (all fields optional; `dimensions` flattened). -/
structure ProductSpecifications where
  weight : Option Int
  length : Option Int
  width : Option Int
  height : Option Int
  color : Option String
  size : Option String
  material : Option String
deriving Repr, DecidableEq

/-- `ProductMedia`. -/
structure ProductMedia where
  images : List String
  primaryImage : Option String
  documents : List String
deriving Repr, DecidableEq

/-- `Product` (a document of the `products` collection). -/
structure Product where
  id : String
  sku : String
  barcode : Option String
  name : String
  description : String
  brand : Option String
  model : Option String
  categoryId : String
  supplierId : String
  pricing : ProductPricing
  inventory : ProductInventory
  specifications : Option ProductSpecifications
  media : ProductMedia
  tags : List String
  isActive : Bool
  isFeatured : Bool
  createdAt : Nat
  updatedAt : Nat
  createdBy : String
deriving Repr, DecidableEq

/-- `Omit<ProductInventory, 'currentStock'>` — the inventory shape allowed in
create/update requests: it cannot carry an initial stock. -/
structure CreateInventory where
  minStock : Int
  maxStock : Int
  reorderPoint : Int
  unit : String
  location : String
deriving Repr, DecidableEq

/-- `CreateProductRequest`. -/
structure CreateProductRequest where
  sku : String
  barcode : Option String
  name : String
  description : String
  brand : Option String
  model : Option String
  categoryId : String
  supplierId : String
  pricing : ProductPricing
  inventory : CreateInventory
  specifications : Option ProductSpecifications
  tags : Option (List String)
deriving Repr, DecidableEq

/-- `Partial<UpdateProductRequest>` — every field of `CreateProductRequest`
plus `id`, all optional. -/
structure UpdatePatch where
  id : Option String := none
  sku : Option String := none
  barcode : Option String := none
  name : Option String := none
  description : Option String := none
  brand : Option String := none
  model : Option String := none
  categoryId : Option String := none
  supplierId : Option String := none
  pricing : Option ProductPricing := none
  inventory : Option CreateInventory := none
  specifications : Option ProductSpecifications := none
  tags : Option (List String) := none
deriving Repr, DecidableEq

/-- `StockMovement` (a document of the `stockMovements` collection, declared in
`types/index.ts`; no code under the provided tree ever appends one). -/
structure StockMovement where
  id : String
  productId : String
  type : String
  reason : String
  amount : Int
  unit : String
  stockBefore : Int
  stockAfter : Int
  createdAt : Nat
  createdBy : String
deriving Repr, DecidableEq

/-- The `changes` payload passed to `AuditService.log` at each call site of
`ProductService` (the shapes differ per call site). -/
inductive AuditChanges where
  | created (after : Product)
  | updated (before after : Product)
  | deleted (before after : Product)
  | stock (before : Option Int) (after : Int)
deriving Repr, DecidableEq

/-- One `auditService.log({...})` call as issued by `ProductService`. -/
structure AuditCall where
  userId : String
  action : String
  resource : String
  resourceId : String
  changes : AuditChanges
deriving Repr, DecidableEq

/-- The durable state: the Firestore collections touched by the engine. -/
structure Store where
  products : List Product
  stockMovements : List StockMovement
  audits : List AuditCall
deriving Repr, DecidableEq

/-! ## JavaScript helpers -/

/-- JavaScript truthiness of an optional string (`undefined` and `""` are falsy). -/
def truthy (o : Option String) : Bool :=
  match o with
  | none => false
  | some v => v != ""

/-- JavaScript `x > 0` where `x` may be `undefined` (`undefined > 0` is `false`). -/
def jsGtZero (o : Option Int) : Bool :=
  match o with
  | none => false
  | some v => 0 < v

/-- `collection.doc(docId).set(p)`: replace the document with key `docId`,
insert if absent. -/
def setDoc (l : List Product) (docId : String) (p : Product) : List Product :=
  match l with
  | [] => [p]
  | q :: rest => if q.id == docId then p :: rest else q :: setDoc rest docId p

/-! ## `ProductService` -/

/-- `ProductService.getProductById`: `doc(productId).get()`, throwing
`NotFoundError('Product', productId)` when the document does not exist. -/
def getProductById (s : Store) (productId : String) : Except AppError Product :=
  match s.products.find? (fun p => p.id == productId) with
  | some p => Except.ok p
  | none => Except.error (NotFoundError "Product" (some productId))

/-- `ProductService.getProductBySKU`: query
`where('sku','==',sku).where('isActive','==',true).limit(1)`, throwing
`NotFoundError('Product with SKU', sku)` on an empty snapshot. -/
def getProductBySKU (s : Store) (sku : String) : Except AppError Product :=
  match (s.products.filter (fun p => p.sku == sku && p.isActive)).head? with
  | some p => Except.ok p
  | none => Except.error (NotFoundError "Product with SKU" (some sku))

/-- `ProductService.getProductByBarcode`: query
`where('barcode','==',barcode).where('isActive','==',true).limit(1)`. -/
def getProductByBarcode (s : Store) (barcode : String) : Except AppError Product :=
  match (s.products.filter (fun p => p.barcode == some barcode && p.isActive)).head? with
  | some p => Except.ok p
  | none => Except.error (NotFoundError "Product with barcode" (some barcode))

/-- `ProductService.validateUniqueSKU`: among **active** products with the
candidate `sku`, find one whose id differs from `excludeProductId`
(`doc.id !== excludeProductId`; with no exclusion every match conflicts) and
throw `ConflictError` naming the SKU. -/
def validateUniqueSKU (s : Store) (sku : String) (excludeProductId : Option String) :
    Except AppError Unit :=
  let docs := s.products.filter (fun p => p.sku == sku && p.isActive)
  match docs.find? (fun p => !(some p.id == excludeProductId)) with
  | some _ => Except.error (ConflictError s!"Product with SKU \x27{sku}\x27 already exists")
  | none => Except.ok ()

/-- `ProductService.validateUniqueBarcode`: same policy for the barcode. -/
def validateUniqueBarcode (s : Store) (barcode : String) (excludeProductId : Option String) :
    Except AppError Unit :=
  let docs := s.products.filter (fun p => p.barcode == some barcode && p.isActive)
  match docs.find? (fun p => !(some p.id == excludeProductId)) with
  | some _ => Except.error (ConflictError s!"Product with barcode \x27{barcode}\x27 already exists")
  | none => Except.ok ()

/-- `ProductService.createProduct`.  `productId` stands for the generated
`uuidv4()` and `now` for `Timestamp.now()`.  The constructed product forces
`currentStock: 0`; the source's `media` literal spreads
`productData.specifications` into it, which sets no `ProductMedia` field, so
`media` is `{images: [], documents: []}`.  `tags` falls back to `[]` only when
absent (an empty array is truthy in JavaScript). -/
def createProduct (s : Store) (productData : CreateProductRequest) (userId : String)
    (productId : String) (now : Nat) : Store × Except AppError Product :=
  match validateUniqueSKU s productData.sku none with
  | Except.error e => (s, Except.error e)
  | Except.ok _ =>
  match (match productData.barcode with
         | some b => if b != "" then validateUniqueBarcode s b none else Except.ok ()
         | none => Except.ok ()) with
  | Except.error e => (s, Except.error e)
  | Except.ok _ =>
    let product : Product :=
      { id := productId
        sku := productData.sku
        barcode := productData.barcode
        name := productData.name
        description := productData.description
        brand := productData.brand
        model := productData.model
        categoryId := productData.categoryId
        supplierId := productData.supplierId
        pricing := productData.pricing
        inventory :=
          { currentStock := some 0
            minStock := productData.inventory.minStock
            maxStock := productData.inventory.maxStock
            reorderPoint := productData.inventory.reorderPoint
            unit := productData.inventory.unit
            location := productData.inventory.location }
        specifications := productData.specifications
        media := { images := [], primaryImage := none, documents := [] }
        tags := productData.tags.getD []
        isActive := true
        isFeatured := false
        createdAt := now
        updatedAt := now
        createdBy := userId }
    let s1 : Store :=
      { s with
        products := setDoc s.products productId product
        audits := s.audits ++
          [{ userId := userId, action := "create", resource := "product"
             resourceId := productId, changes := AuditChanges.created product }] }
    (s1, Except.ok product)

/-- The object spread `{...currentProduct, ...updateData}`: a present patch
field overrides the stored one; an `inventory` patch replaces the whole stored
inventory with an object that has no `currentStock` key. -/
def applyPatch (p : Product) (u : UpdatePatch) : Product :=
  { id := u.id.getD p.id
    sku := u.sku.getD p.sku
    barcode := match u.barcode with | some b => some b | none => p.barcode
    name := u.name.getD p.name
    description := u.description.getD p.description
    brand := match u.brand with | some b => some b | none => p.brand
    model := match u.model with | some m => some m | none => p.model
    categoryId := u.categoryId.getD p.categoryId
    supplierId := u.supplierId.getD p.supplierId
    pricing := u.pricing.getD p.pricing
    inventory := match u.inventory with
      | some inv =>
          { currentStock := none
            minStock := inv.minStock
            maxStock := inv.maxStock
            reorderPoint := inv.reorderPoint
            unit := inv.unit
            location := inv.location }
      | none => p.inventory
    specifications := match u.specifications with | some sp => some sp | none => p.specifications
    media := p.media
    tags := u.tags.getD p.tags
    isActive := p.isActive
    isFeatured := p.isFeatured
    createdAt := p.createdAt
    updatedAt := p.updatedAt
    createdBy := p.createdBy }

/-- `ProductService.updateProduct`.  SKU uniqueness is validated only when the
patch carries a truthy SKU different from the current one
(`updateData.sku && updateData.sku !== currentProduct.sku`); likewise for the
barcode.  After the spread, `id`, `createdAt` and `createdBy` are forced back
to their previous values and `updatedAt` to `now`. -/
def updateProduct (s : Store) (productId : String) (updateData : UpdatePatch)
    (userId : String) (now : Nat) : Store × Except AppError Product :=
  match getProductById s productId with
  | Except.error e => (s, Except.error e)
  | Except.ok currentProduct =>
  match (match updateData.sku with
         | some v =>
             if v != "" && v != currentProduct.sku then
               validateUniqueSKU s v (some productId)
             else Except.ok ()
         | none => Except.ok ()) with
  | Except.error e => (s, Except.error e)
  | Except.ok _ =>
  match (match updateData.barcode with
         | some v =>
             if v != "" && !(currentProduct.barcode == some v) then
               validateUniqueBarcode s v (some productId)
             else Except.ok ()
         | none => Except.ok ()) with
  | Except.error e => (s, Except.error e)
  | Except.ok _ =>
    let updatedProduct : Product :=
      { applyPatch currentProduct updateData with
        id := productId
        updatedAt := now
        createdAt := currentProduct.createdAt
        createdBy := currentProduct.createdBy }
    let s1 : Store :=
      { s with
        products := setDoc s.products productId updatedProduct
        audits := s.audits ++
          [{ userId := userId, action := "update", resource := "product"
             resourceId := productId
             changes := AuditChanges.updated currentProduct updatedProduct }] }
    (s1, Except.ok updatedProduct)

/-- `ProductService.deleteProduct` (soft delete): throw
`ConflictError('Cannot delete product with existing stock')` when
`product.inventory.currentStock > 0`, otherwise write the product back with
`isActive: false`. -/
def deleteProduct (s : Store) (productId : String) (userId : String) (now : Nat) :
    Store × Except AppError Unit :=
  match getProductById s productId with
  | Except.error e => (s, Except.error e)
  | Except.ok product =>
    if jsGtZero product.inventory.currentStock then
      (s, Except.error (ConflictError "Cannot delete product with existing stock"))
    else
      let updatedProduct : Product := { product with isActive := false, updatedAt := now }
      let s1 : Store :=
        { s with
          products := setDoc s.products productId updatedProduct
          audits := s.audits ++
            [{ userId := userId, action := "delete", resource := "product"
               resourceId := productId
               changes := AuditChanges.deleted product updatedProduct }] }
      (s1, Except.ok ())

/-- `ProductService.updateStock`: load the product, overwrite
`inventory.currentStock` with the caller-supplied `newStock` (no validation of
any kind), `set` the document, then `await` `checkStockLevels` and
`auditService.log`; an error thrown by either is re-thrown by the `catch`
block after the product write has already committed.  `alertErr`/`auditErr`
inject the outcome of those two collaborator calls. -/
def updateStock (s : Store) (productId : String) (newStock : Int) (userId : String)
    (now : Nat) (alertErr auditErr : Option AppError) : Store × Except AppError Product :=
  match getProductById s productId with
  | Except.error e => (s, Except.error e)
  | Except.ok product =>
    let previousStock := product.inventory.currentStock
    let updatedProduct : Product :=
      { product with
        inventory := { product.inventory with currentStock := some newStock }
        updatedAt := now }
    let s1 : Store := { s with products := setDoc s.products productId updatedProduct }
    match alertErr with
    | some e => (s1, Except.error e)
    | none =>
      match auditErr with
      | some e => (s1, Except.error e)
      | none =>
        let s2 : Store :=
          { s1 with
            audits := s1.audits ++
              [{ userId := userId, action := "update", resource := "product"
                 resourceId := productId
                 changes := AuditChanges.stock previousStock newStock }] }
        (s2, Except.ok updatedProduct)

/-! ## Inventory Mutator (spec §4.2) — modelled from the spec -/

/-- Product state as seen by the Inventory Mutator: the current stock quantity. -/
structure LedgerProduct where
  stock : Int
deriving Repr, DecidableEq

/-- One ledger entry as appended by a mutator operation: movement type, signed
delta, and the `stockBefore`/`stockAfter` snapshot. -/
structure LedgerEntry where
  type : String
  delta : Int
  stockBefore : Int
  stockAfter : Int
deriving Repr, DecidableEq

/-- Failure kinds of the Inventory Mutator operations (spec §4.2/§7). -/
inductive MutatorErr where
  | validation
  | insufficientStock
deriving Repr, DecidableEq

/-- Modelled from the spec: `recordStockIn` of the Inventory Mutator (spec
§4.2) — its implementation (the stock service behind `POST /api/stock/in`) is
not among the provided sources; only its REST documentation, the
`StockMovement` declaration and the `stockMovements` schema are.  Per the
spec's words: `newStock = currentStock + quantity`, failing only when
`quantity ≤ 0` (ValidationError); on success one ledger entry with signed
delta `+quantity` is appended. -/
def recordStockIn (p : LedgerProduct) (q : Int) :
    Except MutatorErr (LedgerProduct × LedgerEntry) :=
  if q ≤ 0 then Except.error MutatorErr.validation
  else
    Except.ok ({ stock := p.stock + q },
      { type := "in", delta := q, stockBefore := p.stock, stockAfter := p.stock + q })

/-- Modelled from the spec: `recordStockOut` of the Inventory Mutator (spec
§4.2), likewise absent from the provided sources.  Per the spec's words: fails
with `InsufficientStock` when `quantity > currentStock`, otherwise
`newStock = currentStock - quantity` with one ledger entry of signed delta
`-quantity`.  Batch FIFO allocation (spec §4.2/§9) does not alter the
`currentStock` arithmetic and is left out. -/
def recordStockOut (p : LedgerProduct) (q : Int) :
    Except MutatorErr (LedgerProduct × LedgerEntry) :=
  if q ≤ 0 then Except.error MutatorErr.validation
  else if p.stock < q then Except.error MutatorErr.insufficientStock
  else
    Except.ok ({ stock := p.stock - q },
      { type := "out", delta := -q, stockBefore := p.stock, stockAfter := p.stock - q })

/-! ## Concrete sample data for witnesses and counterexamples -/

/-- A concrete product document used to build sample stores. -/
def sampleProduct (i sku : String) (barcode : Option String) (stock : Option Int)
    (active : Bool) : Product :=
  { id := i
    sku := sku
    barcode := barcode
    name := "Laptop"
    description := "a laptop"
    brand := none
    model := none
    categoryId := "cat1"
    supplierId := "sup1"
    pricing := { costPrice := 10, salePrice := 20, currency := "EUR", taxRate := 23, markup := 100 }
    inventory :=
      { currentStock := stock, minStock := 5, maxStock := 100, reorderPoint := 10
        unit := "un", location := "A1" }
    specifications := none
    media := { images := [], primaryImage := none, documents := [] }
    tags := []
    isActive := active
    isFeatured := false
    createdAt := 0
    updatedAt := 0
    createdBy := "u0" }

/-- Store with one active product `p1` holding stock 5. -/
def storeP1 : Store :=
  { products := [sampleProduct "p1" "SKU-1" (some "4006381333931") (some 5) true]
    stockMovements := []
    audits := [] }

/-- Store for the C5 counterexample: active product `a` (sku `S1`) and active
product `b` whose sku is the empty string. -/
def storeEmptySku : Store :=
  { products :=
      [sampleProduct "a" "S1" none (some 0) true,
       sampleProduct "b" "" none (some 0) true]
    stockMovements := []
    audits := [] }

/-- The patch of the C5 counterexample: set the SKU to the empty string. -/
def patchEmptySku : UpdatePatch := { sku := some "" }

/-- Store for the C5 witness: active `a` (sku `S1`) and active `c` (sku `DUP`). -/
def storeDupSku : Store :=
  { products :=
      [sampleProduct "a" "S1" none (some 0) true,
       sampleProduct "c" "DUP" none (some 0) true]
    stockMovements := []
    audits := [] }

/-- The patch of the C5 witness: change the SKU of `a` to the taken `DUP`. -/
def patchDupSku : UpdatePatch := { sku := some "DUP" }

/-- Store for the C5 barcode counterexample: active `a` (barcode `B1`) and
active `b` whose barcode is the empty string. -/
def storeEmptyBarcode : Store :=
  { products :=
      [sampleProduct "a" "S1" (some "B1") (some 0) true,
       sampleProduct "b" "S2" (some "") (some 0) true]
    stockMovements := []
    audits := [] }

/-- The barcode counterexample patch: set the barcode to the empty string. -/
def patchEmptyBarcode : UpdatePatch := { barcode := some "" }

/-- Store for the C5 barcode witness: active `a` (barcode `B1`) and active `c`
(barcode `DUPB`). -/
def storeDupBarcode : Store :=
  { products :=
      [sampleProduct "a" "S1" (some "B1") (some 0) true,
       sampleProduct "c" "S2" (some "DUPB") (some 0) true]
    stockMovements := []
    audits := [] }

/-- The barcode witness patch: change the barcode of `a` to the taken `DUPB`. -/
def patchDupBarcode : UpdatePatch := { barcode := some "DUPB" }

/-- Store for the C10 counterexample: soft-deleted product `a` and active
product `b` sharing sku `S` and barcode `B` (reachable because uniqueness
checks exclude inactive products). -/
def storeReusedSku : Store :=
  { products :=
      [sampleProduct "a" "S" (some "B") (some 0) false,
       sampleProduct "b" "S" (some "B") (some 3) true]
    stockMovements := []
    audits := [] }

/-- Store for the C10 witness: a single soft-deleted product `a`. -/
def storeOnlyInactive : Store :=
  { products := [sampleProduct "a" "S" (some "B") (some 0) false]
    stockMovements := []
    audits := [] }

/-- A concrete create request (no `currentStock` field is even expressible). -/
def sampleRequest : CreateProductRequest :=
  { sku := "SKU-9"
    barcode := none
    name := "Mouse"
    description := "a mouse"
    brand := none
    model := none
    categoryId := "cat1"
    supplierId := "sup1"
    pricing := { costPrice := 1, salePrice := 2, currency := "EUR", taxRate := 23, markup := 100 }
    inventory := { minStock := 2, maxStock := 50, reorderPoint := 4, unit := "un", location := "B2" }
    specifications := none
    tags := none }

/-- A concrete collaborator failure thrown by `checkStockLevels`. -/
def alertFailure : AppError := DatabaseError "stock alert evaluation failed"

/-- The product that `createProduct storeP1 sampleRequest "u9" "pid9" 5` builds. -/
def createdMouse : Product :=
  { id := "pid9"
    sku := "SKU-9"
    barcode := none
    name := "Mouse"
    description := "a mouse"
    brand := none
    model := none
    categoryId := "cat1"
    supplierId := "sup1"
    pricing := { costPrice := 1, salePrice := 2, currency := "EUR", taxRate := 23, markup := 100 }
    inventory :=
      { currentStock := some 0, minStock := 2, maxStock := 50, reorderPoint := 4
        unit := "un", location := "B2" }
    specifications := none
    media := { images := [], primaryImage := none, documents := [] }
    tags := []
    isActive := true
    isFeatured := false
    createdAt := 5
    updatedAt := 5
    createdBy := "u9" }

/-- The store after that create. -/
def storeAfterCreate : Store :=
  { products := [sampleProduct "p1" "SKU-1" (some "4006381333931") (some 5) true, createdMouse]
    stockMovements := []
    audits := [{ userId := "u9", action := "create", resource := "product"
                 resourceId := "pid9", changes := AuditChanges.created createdMouse }] }

/-- The patch of the C8 witness: it even tries to overwrite `id`. -/
def patchRenaming : UpdatePatch := { id := some "evil", name := some "x" }

/-- The product that `updateProduct storeP1 "p1" patchRenaming "u1" 4` returns:
the name changed, `id`/`createdAt`/`createdBy` forced back. -/
def updatedP1 : Product :=
  { sampleProduct "p1" "SKU-1" (some "4006381333931") (some 5) true with
    name := "x", updatedAt := 4 }

/-- The store after that update. -/
def storeAfterUpdate : Store :=
  { products := [updatedP1]
    stockMovements := []
    audits := [{ userId := "u1", action := "update", resource := "product"
                 resourceId := "p1"
                 changes := AuditChanges.updated
                   (sampleProduct "p1" "SKU-1" (some "4006381333931") (some 5) true) updatedP1 }] }

/-! ## Helper lemmas -/

theorem id_eq_of_find? {l : List Product} {pid : String} {p : Product}
    (h : l.find? (fun q => q.id == pid) = some p) : p.id = pid := by
  have := List.find?_some h
  simpa using this

theorem jsGtZero_iff (o : Option Int) :
    jsGtZero o = true ↔ ∃ v, o = some v ∧ 0 < v := by
  cases o with
  | none => simp [jsGtZero]
  | some v => simp [jsGtZero]

theorem find?_setDoc (l : List Product) (docId : String) (p : Product) (h : p.id = docId) :
    (setDoc l docId p).find? (fun q => q.id == docId) = some p := by
  induction l with
  | nil => simp [setDoc, List.find?, h]
  | cons q rest ih =>
    rw [setDoc]
    by_cases hq : (q.id == docId) = true
    · rw [if_pos hq, List.find?_cons_of_pos _ (by simpa using h)]
    · rw [if_neg hq, @List.find?_cons_of_neg _ (fun r => r.id == docId) q (setDoc rest docId p) hq]
      exact ih

theorem find?_id_of_mem_nodup {l : List Product} {p : Product}
    (hmem : p ∈ l) (hids : (l.map Product.id).Nodup) :
    l.find? (fun q => q.id == p.id) = some p := by
  induction l with
  | nil => cases hmem
  | cons a t ih =>
    rcases List.mem_cons.mp hmem with rfl | hmem'
    · simp [List.find?]
    · have hne : a.id ≠ p.id := by
        intro he
        have hmap : p.id ∈ t.map Product.id := List.mem_map_of_mem _ hmem'
        rw [List.map_cons] at hids
        exact (List.nodup_cons.mp hids).1 (he ▸ hmap)
      rw [List.find?_cons_of_neg _ (by simpa using hne)]
      exact ih hmem' (by rw [List.map_cons] at hids; exact (List.nodup_cons.mp hids).2)

theorem filter_head_sat {l : List Product} {f : Product → Bool} {r : Product}
    (h : (l.filter f).head? = some r) : f r = true :=
  (List.mem_filter.mp (List.mem_of_mem_head? (Option.mem_def.mpr h))).2

theorem getProductById_found {s : Store} {pid : String} {p : Product}
    (hp : s.products.find? (fun q => q.id == pid) = some p) :
    getProductById s pid = Except.ok p := by
  unfold getProductById
  rw [hp]

theorem deleteProduct_eq_of_missing {s : Store} {pid : String}
    (hp : s.products.find? (fun q => q.id == pid) = none) (uid : String) (now : Nat) :
    deleteProduct s pid uid now = (s, Except.error (NotFoundError "Product" (some pid))) := by
  unfold deleteProduct getProductById
  rw [hp]

theorem deleteProduct_eq_of_found {s : Store} {pid : String} {p : Product}
    (hp : s.products.find? (fun q => q.id == pid) = some p) (uid : String) (now : Nat) :
    deleteProduct s pid uid now =
      if jsGtZero p.inventory.currentStock then
        (s, Except.error (ConflictError "Cannot delete product with existing stock"))
      else
        ({ s with
            products := setDoc s.products pid { p with isActive := false, updatedAt := now }
            audits := s.audits ++
              [{ userId := uid, action := "delete", resource := "product", resourceId := pid
                 changes := AuditChanges.deleted p { p with isActive := false, updatedAt := now } }] },
          Except.ok ()) := by
  unfold deleteProduct getProductById
  rw [hp]

/-! ## Claim theorems -/

/-- Claim C9: each error kind in the taxonomy carries its distinct, stable
machine-readable code alongside the human-readable message:
`ValidationError ↦ VALIDATION_ERROR`, `NotFoundError ↦ NOT_FOUND`,
`ConflictError ↦ CONFLICT`, `DatabaseError ↦ DATABASE_ERROR`, for every
instance constructed, and the four codes are pairwise distinct. -/
theorem error_codes_stable :
    (∀ m d, (ValidationError m d).code = some "VALIDATION_ERROR" ∧ (ValidationError m d).message = m)
    ∧ (∀ r i, (NotFoundError r i).code = some "NOT_FOUND")
    ∧ (∀ m d, (ConflictError m d).code = some "CONFLICT" ∧ (ConflictError m d).message = m)
    ∧ (∀ m d, (DatabaseError m d).code = some "DATABASE_ERROR" ∧ (DatabaseError m d).message = m)
    ∧ (["VALIDATION_ERROR", "NOT_FOUND", "CONFLICT", "DATABASE_ERROR"] : List String).Nodup :=
  ⟨fun _ _ => ⟨rfl, rfl⟩, fun _ _ => rfl, fun _ _ => ⟨rfl, rfl⟩, fun _ _ => ⟨rfl, rfl⟩, by decide⟩

/-- Claim C1 (code bug): the claim says a requested stock change whose result
would be negative is rejected with a `ValidationError` before any durable
write.  The stock-write path `ProductService.updateStock` performs no such
validation: requesting `newStock = -5` on a product holding stock 5 commits
`currentStock = -5` and reports success. -/
theorem updateStock_commits_negative_stock :
    ((updateStock storeP1 "p1" (-5) "u1" 1 none none).2.toOption.isSome = true)
    ∧ (((updateStock storeP1 "p1" (-5) "u1" 1 none none).1.products.find?
          (fun q => q.id == "p1")).map (fun p => p.inventory.currentStock)
        = some (some (-5))) := by
  exact ⟨rfl, rfl⟩

/-- Claim C2 (code bug): the claim says every committed stock change is
accompanied by exactly one appended movement record in the same atomic unit.
`ProductService.updateStock` commits the product's new stock without appending
anything to the `stockMovements` collection. -/
theorem updateStock_appends_no_ledger_entry :
    ((updateStock storeP1 "p1" 7 "u1" 1 none none).1.stockMovements = ([] : List StockMovement))
    ∧ (((updateStock storeP1 "p1" 7 "u1" 1 none none).1.products.find?
          (fun q => q.id == "p1")).map (fun p => p.inventory.currentStock)
        = some (some 7))
    ∧ ((updateStock storeP1 "p1" 7 "u1" 1 none none).2.toOption.isSome = true) := by
  exact ⟨rfl, rfl, rfl⟩

/-- Claim C3, counterexample: the claim says a post-commit failure in alert
evaluation or audit recording does not cause the mutation to be reported as
failed — the operation still returns the updated product.  In the code the
`catch` block re-throws: with the stock write committed (`currentStock = 7`),
a `checkStockLevels` failure surfaces as an error to the caller. -/
theorem updateStock_alert_failure_reported_to_caller :
    (((updateStock storeP1 "p1" 7 "u1" 1 (some alertFailure) none).1.products.find?
          (fun q => q.id == "p1")).map (fun p => p.inventory.currentStock)
        = some (some 7))
    ∧ ((updateStock storeP1 "p1" 7 "u1" 1 (some alertFailure) none).2
        = Except.error alertFailure) := by
  exact ⟨rfl, rfl⟩

/-- Claim C3, amended: once the product write of `updateStock` has committed,
a subsequent failure in alert evaluation or audit recording does not roll back
the committed stock change — but the error propagates, so the caller receives
the failure rather than the updated product. -/
theorem updateStock_commit_survives_collab_failure (s : Store)
    (productId userId : String) (newStock : Int) (now : Nat)
    (alertErr auditErr : Option AppError) (p : Product)
    (hp : s.products.find? (fun q => q.id == productId) = some p) :
    ((updateStock s productId newStock userId now alertErr auditErr).1.products.find?
        (fun q => q.id == productId)
      = some { p with inventory := { p.inventory with currentStock := some newStock }
                      updatedAt := now })
    ∧ (∀ e, alertErr = some e →
        (updateStock s productId newStock userId now alertErr auditErr).2 = Except.error e)
    ∧ (∀ e, alertErr = none → auditErr = some e →
        (updateStock s productId newStock userId now alertErr auditErr).2 = Except.error e) := by
  have hid : p.id = productId := id_eq_of_find? hp
  unfold updateStock getProductById
  rw [hp]
  refine ⟨?_, ?_, ?_⟩
  · cases alertErr with
    | some e => exact find?_setDoc _ _ _ hid
    | none =>
      cases auditErr with
      | some e => exact find?_setDoc _ _ _ hid
      | none => exact find?_setDoc _ _ _ hid
  · intro e he
    subst he
    rfl
  · intro e ha he
    subst ha; subst he
    rfl

/-- Claim C3 witness: the amended theorem applied to the concrete store
`storeP1` with a failing alert evaluation — the stock write stands and the
failure (exactly `alertFailure`) is what the caller receives. -/
theorem updateStock_commit_survives_collab_failure_witness :
    ((updateStock storeP1 "p1" 7 "u1" 1 (some alertFailure) none).1.products.find?
        (fun q => q.id == "p1")
      = some { sampleProduct "p1" "SKU-1" (some "4006381333931") (some 5) true with
                inventory := { (sampleProduct "p1" "SKU-1" (some "4006381333931")
                    (some 5) true).inventory with currentStock := some 7 }
                updatedAt := 1 })
    ∧ ((updateStock storeP1 "p1" 7 "u1" 1 (some alertFailure) none).2
        = Except.error alertFailure) :=
  ⟨(updateStock_commit_survives_collab_failure storeP1 "p1" "u1" 7 1
      (some alertFailure) none _ (by decide)).1,
   (updateStock_commit_survives_collab_failure storeP1 "p1" "u1" 7 1
      (some alertFailure) none
      (sampleProduct "p1" "SKU-1" (some "4006381333931") (some 5) true)
      (by decide)).2.1 alertFailure rfl⟩

/-- Claim C4: `deleteProduct` fails with `ConflictError` if and only if the
product exists and its `currentStock > 0`; on that failure no write occurs
(the store is unchanged); and when `currentStock = 0` it succeeds by writing
the product back with `isActive := false`. -/
theorem deleteProduct_conflict_iff (s : Store) (productId userId : String) (now : Nat) :
    (((deleteProduct s productId userId now).2
        = Except.error (ConflictError "Cannot delete product with existing stock"))
      ↔ ∃ p, s.products.find? (fun q => q.id == productId) = some p
          ∧ ∃ v, p.inventory.currentStock = some v ∧ 0 < v)
    ∧ (((deleteProduct s productId userId now).2
          = Except.error (ConflictError "Cannot delete product with existing stock"))
        → (deleteProduct s productId userId now).1 = s)
    ∧ (∀ p, s.products.find? (fun q => q.id == productId) = some p →
        p.inventory.currentStock = some 0 →
        (deleteProduct s productId userId now).2 = Except.ok ()
        ∧ (deleteProduct s productId userId now).1.products.find? (fun q => q.id == productId)
            = some { p with isActive := false, updatedAt := now }) := by
  cases hf : s.products.find? (fun q => q.id == productId) with
  | none =>
    rw [deleteProduct_eq_of_missing hf userId now]
    refine ⟨?_, ?_, ?_⟩
    · constructor
      · intro h
        exfalso
        simp [NotFoundError, ConflictError] at h
      · rintro ⟨p, hp, -⟩
        exact absurd hp (by simp)
    · intro h
      rfl
    · intro p hp
      exact absurd hp (by simp)
  | some p =>
    have hid : p.id = productId := id_eq_of_find? hf
    rw [deleteProduct_eq_of_found hf userId now]
    by_cases hs : jsGtZero p.inventory.currentStock = true
    · rw [if_pos hs]
      refine ⟨?_, ?_, ?_⟩
      · constructor
        · intro _
          exact ⟨p, rfl, (jsGtZero_iff _).mp hs⟩
        · intro _
          rfl
      · intro _
        rfl
      · intro p' hp' h0
        injection hp' with hp'
        subst hp'
        rw [h0] at hs
        exact absurd hs (by simp [jsGtZero])
    · rw [if_neg hs]
      refine ⟨?_, ?_, ?_⟩
      · constructor
        · intro h
          exact absurd h (by simp)
        · rintro ⟨p', hp', v, hv, hvpos⟩
          injection hp' with hp'
          subst hp'
          exact absurd ((jsGtZero_iff _).mpr ⟨v, hv, hvpos⟩) hs
      · intro h
        exact absurd h (by simp)
      · intro p' hp' h0
        injection hp' with hp'
        subst hp'
        exact ⟨rfl, find?_setDoc _ _ _ hid⟩

/-- Claim C4 witness: on the concrete store `storeP1` (product `p1` with
stock 5) the delete is rejected with the `ConflictError` and the store is
unchanged. -/
theorem deleteProduct_conflict_iff_witness :
    (deleteProduct storeP1 "p1" "u1" 3).2
        = Except.error (ConflictError "Cannot delete product with existing stock")
    ∧ (deleteProduct storeP1 "p1" "u1" 3).1 = storeP1 := by
  have herr := ((deleteProduct_conflict_iff storeP1 "p1" "u1" 3).1).mpr
    ⟨sampleProduct "p1" "SKU-1" (some "4006381333931") (some 5) true, rfl, 5, rfl, by decide⟩
  exact ⟨herr, (deleteProduct_conflict_iff storeP1 "p1" "u1" 3).2.1 herr⟩

/-- Claim C7 (spec-modelled): `recordStockIn(p, q)` followed by
`recordStockOut(p, q)` (for `q > 0` on a valid state `stock ≥ 0`) restores the
stock to its pre-operation value and produces two ledger entries whose signed
deltas `q` and `-q` cancel. -/
theorem recordStockIn_out_round_trip (p : LedgerProduct) (q : Int)
    (hq : 0 < q) (hs : 0 ≤ p.stock) :
    recordStockIn p q = Except.ok ({ stock := p.stock + q },
        { type := "in", delta := q, stockBefore := p.stock, stockAfter := p.stock + q })
    ∧ recordStockOut { stock := p.stock + q } q = Except.ok ({ stock := p.stock + q - q },
        { type := "out", delta := -q, stockBefore := p.stock + q, stockAfter := p.stock + q - q })
    ∧ p.stock + q - q = p.stock
    ∧ q + (-q) = 0 := by
  have hq' : ¬ q ≤ 0 := not_le.mpr hq
  have h2 : ¬ (p.stock + q) < q := by omega
  refine ⟨?_, ?_, by omega, by omega⟩
  · simp [recordStockIn, hq']
  · simp [recordStockOut, hq', h2]

/-- Claim C7 witness: the round trip on a product with stock 5 and quantity 3. -/
theorem recordStockIn_out_round_trip_witness :
    recordStockIn ⟨5⟩ 3 = Except.ok (⟨5 + 3⟩,
        { type := "in", delta := 3, stockBefore := 5, stockAfter := 5 + 3 })
    ∧ recordStockOut ⟨5 + 3⟩ 3 = Except.ok (⟨5 + 3 - 3⟩,
        { type := "out", delta := -3, stockBefore := 5 + 3, stockAfter := 5 + 3 - 3 })
    ∧ (5 : Int) + 3 - 3 = 5
    ∧ (3 : Int) + (-3) = 0 :=
  recordStockIn_out_round_trip ⟨5⟩ 3 (by decide) (by decide)

/-- Claim C6: every successfully created product has `currentStock = 0`
regardless of the inventory values supplied by the caller — the request type
(`CreateInventory`, i.e. `Omit<ProductInventory, 'currentStock'>`) cannot even
carry an initial stock, and `createProduct` forces `currentStock: 0`.  The
stored document equals the returned product. -/
theorem createProduct_zero_initial_stock (s s2 : Store) (req : CreateProductRequest)
    (userId productId : String) (now : Nat) (p : Product)
    (h : createProduct s req userId productId now = (s2, Except.ok p)) :
    p.inventory.currentStock = some 0
    ∧ s2.products.find? (fun q => q.id == productId) = some p := by
  unfold createProduct at h
  split at h
  · exact absurd h (by simp)
  · split at h
    · exact absurd h (by simp)
    · rw [Prod.mk.injEq] at h
      obtain ⟨hs2, hp⟩ := h
      injection hp with hp
      subst hp
      subst hs2
      exact ⟨rfl, find?_setDoc _ _ _ rfl⟩

/-- Claim C6 witness: creating `sampleRequest` in `storeP1` yields
`createdMouse` with `currentStock = 0`, stored under its fresh id. -/
theorem createProduct_zero_initial_stock_witness :
    createdMouse.inventory.currentStock = some 0
    ∧ storeAfterCreate.products.find? (fun q => q.id == "pid9") = some createdMouse :=
  createProduct_zero_initial_stock storeP1 storeAfterCreate sampleRequest
    "u9" "pid9" 5 createdMouse rfl

/-- Claim C8: `updateProduct` never changes a product's `id`, `createdAt` or
`createdBy` — for every stored product and every patch (even one attempting to
set those fields) the returned product, which is also the stored one, keeps
the previous `id`, `createdAt` and `createdBy`. -/
theorem updateProduct_preserves_identity (s s2 : Store) (productId userId : String)
    (u : UpdatePatch) (now : Nat) (p p2 : Product)
    (hp : s.products.find? (fun q => q.id == productId) = some p)
    (h : updateProduct s productId u userId now = (s2, Except.ok p2)) :
    p2.id = p.id ∧ p2.createdAt = p.createdAt ∧ p2.createdBy = p.createdBy
    ∧ s2.products.find? (fun q => q.id == productId) = some p2 := by
  have hid : p.id = productId := id_eq_of_find? hp
  unfold updateProduct at h
  rw [getProductById_found hp] at h
  simp only [] at h
  split at h
  · exact absurd h (by simp)
  · split at h
    · exact absurd h (by simp)
    · rw [Prod.mk.injEq] at h
      obtain ⟨hs2, hp2⟩ := h
      injection hp2 with hp2
      subst hp2
      subst hs2
      exact ⟨hid.symm, rfl, rfl, find?_setDoc _ _ _ rfl⟩

/-- Claim C8 witness: `patchRenaming` tries to overwrite `id` (and changes
the name); the updated `p1` keeps `id`, `createdAt` and `createdBy`. -/
theorem updateProduct_preserves_identity_witness :
    updatedP1.id = (sampleProduct "p1" "SKU-1" (some "4006381333931") (some 5) true).id
    ∧ updatedP1.createdAt
        = (sampleProduct "p1" "SKU-1" (some "4006381333931") (some 5) true).createdAt
    ∧ updatedP1.createdBy
        = (sampleProduct "p1" "SKU-1" (some "4006381333931") (some 5) true).createdBy
    ∧ storeAfterUpdate.products.find? (fun q => q.id == "p1") = some updatedP1 :=
  updateProduct_preserves_identity storeP1 storeAfterUpdate "p1" "u1" patchRenaming 4
    (sampleProduct "p1" "SKU-1" (some "4006381333931") (some 5) true) updatedP1
    rfl rfl

theorem validateUniqueSKU_cases (s : Store) (v : String) (ex : Option String) :
    validateUniqueSKU s v ex = Except.ok ()
    ∨ validateUniqueSKU s v ex
        = Except.error (ConflictError s!"Product with SKU \x27{v}\x27 already exists") := by
  unfold validateUniqueSKU
  cases hf : ((s.products.filter (fun p => p.sku == v && p.isActive)).find?
      (fun p => !(some p.id == ex))) with
  | none => simp [hf]
  | some w => simp [hf]

theorem validateUniqueSKU_error_iff (s : Store) (v : String) (ex : Option String) :
    validateUniqueSKU s v ex
        = Except.error (ConflictError s!"Product with SKU \x27{v}\x27 already exists")
      ↔ ∃ q, q ∈ s.products ∧ q.isActive = true ∧ q.sku = v ∧ some q.id ≠ ex := by
  have hiff : validateUniqueSKU s v ex
      = Except.error (ConflictError s!"Product with SKU \x27{v}\x27 already exists")
      ↔ ((s.products.filter (fun p => p.sku == v && p.isActive)).find?
          (fun p => !(some p.id == ex))).isSome = true := by
    unfold validateUniqueSKU
    cases hf : ((s.products.filter (fun p => p.sku == v && p.isActive)).find?
        (fun p => !(some p.id == ex))) with
    | none => simp [hf]
    | some w => simp [hf]
  rw [hiff, List.find?_isSome]
  constructor
  · rintro ⟨x, hx, hpx⟩
    have hmem := List.mem_filter.mp hx
    have hprops : x.sku = v ∧ x.isActive = true := by simpa using hmem.2
    refine ⟨x, hmem.1, hprops.2, hprops.1, ?_⟩
    simpa using hpx
  · rintro ⟨q, hq, hact, hsku, hex⟩
    refine ⟨q, List.mem_filter.mpr ⟨hq, by simp [hsku, hact]⟩, by simpa using hex⟩

theorem validateUniqueBarcode_cases (s : Store) (w : String) (ex : Option String) :
    validateUniqueBarcode s w ex = Except.ok ()
    ∨ validateUniqueBarcode s w ex
        = Except.error (ConflictError s!"Product with barcode \x27{w}\x27 already exists") := by
  unfold validateUniqueBarcode
  cases hf : ((s.products.filter (fun p => p.barcode == some w && p.isActive)).find?
      (fun p => !(some p.id == ex))) with
  | none => simp [hf]
  | some x => simp [hf]

theorem validateUniqueBarcode_error_iff (s : Store) (w : String) (ex : Option String) :
    validateUniqueBarcode s w ex
        = Except.error (ConflictError s!"Product with barcode \x27{w}\x27 already exists")
      ↔ ∃ q, q ∈ s.products ∧ q.isActive = true ∧ q.barcode = some w ∧ some q.id ≠ ex := by
  have hiff : validateUniqueBarcode s w ex
      = Except.error (ConflictError s!"Product with barcode \x27{w}\x27 already exists")
      ↔ ((s.products.filter (fun p => p.barcode == some w && p.isActive)).find?
          (fun p => !(some p.id == ex))).isSome = true := by
    unfold validateUniqueBarcode
    cases hf : ((s.products.filter (fun p => p.barcode == some w && p.isActive)).find?
        (fun p => !(some p.id == ex))) with
    | none => simp [hf]
    | some x => simp [hf]
  rw [hiff, List.find?_isSome]
  constructor
  · rintro ⟨x, hx, hpx⟩
    have hmem := List.mem_filter.mp hx
    have hprops : x.barcode = some w ∧ x.isActive = true := by simpa using hmem.2
    refine ⟨x, hmem.1, hprops.2, hprops.1, ?_⟩
    simpa using hpx
  · rintro ⟨q, hq, hact, hbc, hex⟩
    refine ⟨q, List.mem_filter.mpr ⟨hq, by simp [hbc, hact]⟩, by simpa using hex⟩

theorem validateUniqueSKU_ok_iff (s : Store) (v : String) (ex : Option String) :
    validateUniqueSKU s v ex = Except.ok ()
      ↔ ¬ ∃ q, q ∈ s.products ∧ q.isActive = true ∧ q.sku = v ∧ some q.id ≠ ex := by
  constructor
  · intro hok hdup
    have herr := (validateUniqueSKU_error_iff s v ex).mpr hdup
    rw [hok] at herr
    exact absurd herr (by simp)
  · intro hnd
    rcases validateUniqueSKU_cases s v ex with hok | herr
    · exact hok
    · exact absurd ((validateUniqueSKU_error_iff s v ex).mp herr) hnd

theorem validateUniqueBarcode_ok_iff (s : Store) (w : String) (ex : Option String) :
    validateUniqueBarcode s w ex = Except.ok ()
      ↔ ¬ ∃ q, q ∈ s.products ∧ q.isActive = true ∧ q.barcode = some w ∧ some q.id ≠ ex := by
  constructor
  · intro hok hdup
    have herr := (validateUniqueBarcode_error_iff s w ex).mpr hdup
    rw [hok] at herr
    exact absurd herr (by simp)
  · intro hnd
    rcases validateUniqueBarcode_cases s w ex with hok | herr
    · exact hok
    · exact absurd ((validateUniqueBarcode_error_iff s w ex).mp herr) hnd

/-- Claim C5, counterexample: the claim says every update that changes the SKU
or barcode is preceded by the uniqueness check.  A patch setting either field
to the empty string is falsy in JavaScript (`updateData.sku && ...`,
`updateData.barcode && ...`), so the check is skipped: updating product `a`
(sku `S1`) to sku `""` succeeds although another active product `b` already
carries sku `""`, and likewise updating `a`'s barcode `B1` to barcode `""`
succeeds although another active product already carries barcode `""`. -/
theorem updateProduct_empty_string_skips_uniqueness_check :
    ((updateProduct storeEmptySku "a" patchEmptySku "u1" 2).2.toOption.map Product.sku
      = some "")
    ∧ (storeEmptySku.products.any (fun q => q.id != "a" && q.isActive && q.sku == "") = true)
    ∧ ((updateProduct storeEmptyBarcode "a" patchEmptyBarcode "u1" 2).2.toOption.map
        Product.barcode = some (some ""))
    ∧ (storeEmptyBarcode.products.any
        (fun q => q.id != "a" && q.isActive && q.barcode == some "") = true) := by
  exact ⟨rfl, rfl, rfl, rfl⟩

/-- Claim C5, amended: before a create, and before an update whose patch
carries a **non-empty** SKU (resp. barcode) different from the current one,
the engine fails with a `ConflictError` naming the duplicate field exactly
when some other active product carries the candidate value (soft-deleted
products are ignored; on update the product being updated is ignored), and on
that conflict nothing is written; when a patch or request carries both a
candidate SKU and a candidate barcode, it is rejected with a `ConflictError`
exactly when either value is duplicated (the SKU check runs first, so the
error names the SKU when both are duplicated).  A patch or request carrying
the empty string for a field bypasses that field's check. -/
theorem uniqueness_checks_on_nonempty_fields :
    (∀ (s : Store) (productId userId v : String) (u : UpdatePatch) (now : Nat) (p : Product),
      s.products.find? (fun q => q.id == productId) = some p →
      u.sku = some v → v ≠ "" → v ≠ p.sku → u.barcode = none →
      (updateProduct s productId u userId now
          = (s, Except.error (ConflictError s!"Product with SKU \x27{v}\x27 already exists"))
        ↔ ∃ q, q ∈ s.products ∧ q.isActive = true ∧ q.sku = v ∧ q.id ≠ productId))
    ∧ (∀ (s : Store) (productId userId w : String) (u : UpdatePatch) (now : Nat) (p : Product),
      s.products.find? (fun q => q.id == productId) = some p →
      u.sku = none → u.barcode = some w → w ≠ "" → p.barcode ≠ some w →
      (updateProduct s productId u userId now
          = (s, Except.error (ConflictError s!"Product with barcode \x27{w}\x27 already exists"))
        ↔ ∃ q, q ∈ s.products ∧ q.isActive = true ∧ q.barcode = some w ∧ q.id ≠ productId))
    ∧ (∀ (s : Store) (productId userId v w : String) (u : UpdatePatch) (now : Nat) (p : Product),
      s.products.find? (fun q => q.id == productId) = some p →
      u.sku = some v → v ≠ "" → v ≠ p.sku →
      u.barcode = some w → w ≠ "" → p.barcode ≠ some w →
      ((∃ m d, updateProduct s productId u userId now
          = (s, Except.error (ConflictError m d)))
        ↔ (∃ q, q ∈ s.products ∧ q.isActive = true ∧ q.sku = v ∧ q.id ≠ productId)
          ∨ (∃ q, q ∈ s.products ∧ q.isActive = true ∧ q.barcode = some w ∧ q.id ≠ productId)))
    ∧ (∀ (s : Store) (req : CreateProductRequest) (userId productId : String) (now : Nat),
      req.barcode = none →
      (createProduct s req userId productId now
          = (s, Except.error (ConflictError s!"Product with SKU \x27{req.sku}\x27 already exists"))
        ↔ ∃ q, q ∈ s.products ∧ q.isActive = true ∧ q.sku = req.sku))
    ∧ (∀ (s : Store) (req : CreateProductRequest) (userId productId w : String) (now : Nat),
      req.barcode = some w → w ≠ "" →
      (∀ q, q ∈ s.products → q.isActive = true → q.sku ≠ req.sku) →
      (createProduct s req userId productId now
          = (s, Except.error (ConflictError s!"Product with barcode \x27{w}\x27 already exists"))
        ↔ ∃ q, q ∈ s.products ∧ q.isActive = true ∧ q.barcode = some w))
    ∧ (∀ (s : Store) (req : CreateProductRequest) (userId productId w : String) (now : Nat),
      req.barcode = some w → w ≠ "" →
      ((∃ m d, createProduct s req userId productId now
          = (s, Except.error (ConflictError m d)))
        ↔ (∃ q, q ∈ s.products ∧ q.isActive = true ∧ q.sku = req.sku)
          ∨ (∃ q, q ∈ s.products ∧ q.isActive = true ∧ q.barcode = some w))) := by
  refine ⟨?_, ?_, ?_, ?_, ?_, ?_⟩
  · intro s productId userId v u now p hp hsku hne hneq hbar
    unfold updateProduct
    rw [getProductById_found hp]
    simp only []
    rw [hsku, hbar]
    simp only []
    have hcond : (v != "" && v != p.sku) = true := by simp [hne, hneq]
    rw [if_pos hcond]
    rcases validateUniqueSKU_cases s v (some productId) with hok | herr
    · rw [hok]
      simp only []
      constructor
      · intro hcontra
        exact absurd hcontra (by simp)
      · rintro ⟨q, hq, hact, hsku', hid'⟩
        exfalso
        have herr2 := (validateUniqueSKU_error_iff s v (some productId)).mpr
          ⟨q, hq, hact, hsku', by simpa using hid'⟩
        rw [hok] at herr2
        exact absurd herr2 (by simp)
    · rw [herr]
      simp only []
      constructor
      · intro _
        rcases (validateUniqueSKU_error_iff s v (some productId)).mp herr with
          ⟨q, hq, hact, hsku', hex⟩
        exact ⟨q, hq, hact, hsku', by simpa using hex⟩
      · intro _
        trivial
  · intro s productId userId w u now p hp hsku hbar hne hneq
    unfold updateProduct
    rw [getProductById_found hp]
    simp only []
    rw [hsku, hbar]
    simp only []
    have hcond : (w != "" && !(p.barcode == some w)) = true := by simp [hne, hneq]
    rw [if_pos hcond]
    rcases validateUniqueBarcode_cases s w (some productId) with hok | herr
    · rw [hok]
      simp only []
      constructor
      · intro hcontra
        exact absurd hcontra (by simp)
      · rintro ⟨q, hq, hact, hbc', hid'⟩
        exfalso
        have herr2 := (validateUniqueBarcode_error_iff s w (some productId)).mpr
          ⟨q, hq, hact, hbc', by simpa using hid'⟩
        rw [hok] at herr2
        exact absurd herr2 (by simp)
    · rw [herr]
      simp only []
      constructor
      · intro _
        rcases (validateUniqueBarcode_error_iff s w (some productId)).mp herr with
          ⟨q, hq, hact, hbc', hex⟩
        exact ⟨q, hq, hact, hbc', by simpa using hex⟩
      · intro _
        trivial
  · intro s productId userId v w u now p hp hsku hv1 hv2 hbar hw1 hw2
    unfold updateProduct
    rw [getProductById_found hp]
    simp only []
    rw [hsku, hbar]
    simp only []
    have hcondv : (v != "" && v != p.sku) = true := by simp [hv1, hv2]
    have hcondw : (w != "" && !(p.barcode == some w)) = true := by simp [hw1, hw2]
    rw [if_pos hcondv, if_pos hcondw]
    rcases validateUniqueSKU_cases s v (some productId) with hvok | hverr
    · rw [hvok]
      simp only []
      rcases validateUniqueBarcode_cases s w (some productId) with hwok | hwerr
      · rw [hwok]
        simp only []
        constructor
        · rintro ⟨m, d, hcontra⟩
          exact absurd hcontra (by simp)
        · rintro (⟨q, hq, hact, hsk, hid'⟩ | ⟨q, hq, hact, hbc, hid'⟩)
          · have herr2 := (validateUniqueSKU_error_iff s v (some productId)).mpr
              ⟨q, hq, hact, hsk, by simpa using hid'⟩
            rw [hvok] at herr2
            exact absurd herr2 (by simp)
          · have herr2 := (validateUniqueBarcode_error_iff s w (some productId)).mpr
              ⟨q, hq, hact, hbc, by simpa using hid'⟩
            rw [hwok] at herr2
            exact absurd herr2 (by simp)
      · rw [hwerr]
        simp only []
        constructor
        · intro _
          rcases (validateUniqueBarcode_error_iff s w (some productId)).mp hwerr with
            ⟨q, hq, hact, hbc, hex⟩
          exact Or.inr ⟨q, hq, hact, hbc, by simpa using hex⟩
        · intro _
          exact ⟨_, _, rfl⟩
    · rw [hverr]
      simp only []
      constructor
      · intro _
        rcases (validateUniqueSKU_error_iff s v (some productId)).mp hverr with
          ⟨q, hq, hact, hsk, hex⟩
        exact Or.inl ⟨q, hq, hact, hsk, by simpa using hex⟩
      · intro _
        exact ⟨_, _, rfl⟩
  · intro s req userId productId now hbar
    unfold createProduct
    rcases validateUniqueSKU_cases s req.sku none with hok | herr
    · rw [hok]
      simp only []
      rw [hbar]
      simp only []
      constructor
      · intro hcontra
        exact absurd hcontra (by simp)
      · rintro ⟨q, hq, hact, hsku'⟩
        exfalso
        have herr2 := (validateUniqueSKU_error_iff s req.sku none).mpr
          ⟨q, hq, hact, hsku', by simp⟩
        rw [hok] at herr2
        exact absurd herr2 (by simp)
    · rw [herr]
      simp only []
      constructor
      · intro _
        rcases (validateUniqueSKU_error_iff s req.sku none).mp herr with
          ⟨q, hq, hact, hsku', -⟩
        exact ⟨q, hq, hact, hsku'⟩
      · intro _
        trivial
  · intro s req userId productId w now hbar hne hoksku
    have hso : validateUniqueSKU s req.sku none = Except.ok () :=
      (validateUniqueSKU_ok_iff s req.sku none).mpr
        (by rintro ⟨q, hq, hact, hsk, -⟩; exact hoksku q hq hact hsk)
    unfold createProduct
    rw [hso]
    simp only []
    rw [hbar]
    simp only []
    have hcond : (w != "") = true := by simp [hne]
    rw [if_pos hcond]
    rcases validateUniqueBarcode_cases s w none with hok | herr
    · rw [hok]
      simp only []
      constructor
      · intro hcontra
        exact absurd hcontra (by simp)
      · rintro ⟨q, hq, hact, hbc⟩
        exfalso
        have herr2 := (validateUniqueBarcode_error_iff s w none).mpr
          ⟨q, hq, hact, hbc, by simp⟩
        rw [hok] at herr2
        exact absurd herr2 (by simp)
    · rw [herr]
      simp only []
      constructor
      · intro _
        rcases (validateUniqueBarcode_error_iff s w none).mp herr with
          ⟨q, hq, hact, hbc, -⟩
        exact ⟨q, hq, hact, hbc⟩
      · intro _
        trivial
  · intro s req userId productId w now hbar hne
    unfold createProduct
    rcases validateUniqueSKU_cases s req.sku none with hvok | hverr
    · rw [hvok]
      simp only []
      rw [hbar]
      simp only []
      have hcond : (w != "") = true := by simp [hne]
      rw [if_pos hcond]
      rcases validateUniqueBarcode_cases s w none with hwok | hwerr
      · rw [hwok]
        simp only []
        constructor
        · rintro ⟨m, d, hcontra⟩
          exact absurd hcontra (by simp)
        · rintro (⟨q, hq, hact, hsk⟩ | ⟨q, hq, hact, hbc⟩)
          · have herr2 := (validateUniqueSKU_error_iff s req.sku none).mpr
              ⟨q, hq, hact, hsk, by simp⟩
            rw [hvok] at herr2
            exact absurd herr2 (by simp)
          · have herr2 := (validateUniqueBarcode_error_iff s w none).mpr
              ⟨q, hq, hact, hbc, by simp⟩
            rw [hwok] at herr2
            exact absurd herr2 (by simp)
      · rw [hwerr]
        simp only []
        constructor
        · intro _
          rcases (validateUniqueBarcode_error_iff s w none).mp hwerr with
            ⟨q, hq, hact, hbc, -⟩
          exact Or.inr ⟨q, hq, hact, hbc⟩
        · intro _
          exact ⟨_, _, rfl⟩
    · rw [hverr]
      simp only []
      constructor
      · intro _
        rcases (validateUniqueSKU_error_iff s req.sku none).mp hverr with
          ⟨q, hq, hact, hsk, -⟩
        exact Or.inl ⟨q, hq, hact, hsk⟩
      · intro _
        exact ⟨_, _, rfl⟩

/-- Claim C5 witness: changing product `a`'s SKU to the non-empty `DUP`, which
active product `c` already carries, is rejected with the SKU-naming
`ConflictError` and writes nothing; changing `a`'s barcode to the non-empty
`DUPB`, which active product `c` already carries, is rejected with the
barcode-naming `ConflictError` and writes nothing. -/
theorem uniqueness_checks_on_nonempty_fields_witness :
    updateProduct storeDupSku "a" patchDupSku "uW" 3
        = (storeDupSku,
           Except.error (ConflictError "Product with SKU \x27DUP\x27 already exists"))
    ∧ updateProduct storeDupBarcode "a" patchDupBarcode "uW" 3
        = (storeDupBarcode,
           Except.error (ConflictError "Product with barcode \x27DUPB\x27 already exists")) :=
  ⟨(uniqueness_checks_on_nonempty_fields.1 storeDupSku "a" "uW" "DUP" patchDupSku 3
      (sampleProduct "a" "S1" none (some 0) true)
      (by decide) rfl (by decide) (by decide) rfl).mpr
    ⟨sampleProduct "c" "DUP" none (some 0) true, by decide, rfl, rfl, by decide⟩,
   (uniqueness_checks_on_nonempty_fields.2.1 storeDupBarcode "a" "uW" "DUPB" patchDupBarcode 3
      (sampleProduct "a" "S1" (some "B1") (some 0) true)
      (by decide) rfl rfl (by decide) (by decide)).mpr
    ⟨sampleProduct "c" "S2" (some "DUPB") (some 0) true, by decide, rfl, rfl, by decide⟩⟩

/-- Claim C10, counterexample: the claim says that for every soft-deleted
product, `getProductBySKU`/`getProductByBarcode` fail with `NotFoundError` for
its SKU/barcode.  Because uniqueness checks ignore inactive products, an
active product can reuse the SKU/barcode of a soft-deleted one; the lookup
then returns that active product rather than failing. -/
theorem lookup_of_soft_deleted_can_hit_active_reuser :
    ((sampleProduct "a" "S" (some "B") (some 0) false).isActive = false)
    ∧ (getProductById storeReusedSku "a"
        = Except.ok (sampleProduct "a" "S" (some "B") (some 0) false))
    ∧ (getProductBySKU storeReusedSku "S"
        = Except.ok (sampleProduct "b" "S" (some "B") (some 3) true))
    ∧ (getProductByBarcode storeReusedSku "B"
        = Except.ok (sampleProduct "b" "S" (some "B") (some 3) true)) := by
  exact ⟨rfl, rfl, rfl, rfl⟩

/-- Claim C10, amended: lookup by id and lookup by SKU/barcode differ on
soft-deleted products.  `getProductById` still returns a soft-deleted product,
while `getProductBySKU`/`getProductByBarcode` never return one: they return
only active products, and fail with `NotFoundError` whenever no active product
carries the looked-up SKU/barcode. -/
theorem soft_deleted_lookup_behaviour (s : Store) (p : Product)
    (hmem : p ∈ s.products) (hids : (s.products.map Product.id).Nodup)
    (hinact : p.isActive = false) :
    getProductById s p.id = Except.ok p
    ∧ (∀ r, getProductBySKU s p.sku = Except.ok r → r.isActive = true)
    ∧ ((∀ q, q ∈ s.products → q.isActive = true → q.sku ≠ p.sku) →
        getProductBySKU s p.sku = Except.error (NotFoundError "Product with SKU" (some p.sku)))
    ∧ (∀ b, p.barcode = some b →
        (∀ r, getProductByBarcode s b = Except.ok r → r.isActive = true)
        ∧ ((∀ q, q ∈ s.products → q.isActive = true → q.barcode ≠ some b) →
            getProductByBarcode s b
              = Except.error (NotFoundError "Product with barcode" (some b)))) := by
  refine ⟨?_, ?_, ?_, ?_⟩
  · exact getProductById_found (find?_id_of_mem_nodup hmem hids)
  · intro r hr
    unfold getProductBySKU at hr
    split at hr
    · rename_i w hw
      injection hr with hr
      subst hr
      have := filter_head_sat hw
      simp at this
      exact this.2
    · exact absurd hr (by simp)
  · intro hnone
    have hnil : s.products.filter (fun q => q.sku == p.sku && q.isActive) = [] := by
      rw [List.filter_eq_nil_iff]
      intro a ha hc
      simp at hc
      exact hnone a ha hc.2 hc.1
    unfold getProductBySKU
    rw [hnil]
    rfl
  · intro b hb
    constructor
    · intro r hr
      unfold getProductByBarcode at hr
      split at hr
      · rename_i w hw
        injection hr with hr
        subst hr
        have := filter_head_sat hw
        simp at this
        exact this.2
      · exact absurd hr (by simp)
    · intro hnone
      have hnil : s.products.filter (fun q => q.barcode == some b && q.isActive) = [] := by
        rw [List.filter_eq_nil_iff]
        intro a ha hc
        simp at hc
        exact hnone a ha hc.2 (by simpa using hc.1)
      unfold getProductByBarcode
      rw [hnil]
      rfl

/-- Claim C10 witness: in a store holding only the soft-deleted product `a`,
lookup by id returns it while lookup by its SKU `S` and barcode `B` fail with
`NotFoundError`. -/
theorem soft_deleted_lookup_behaviour_witness :
    getProductById storeOnlyInactive "a"
        = Except.ok (sampleProduct "a" "S" (some "B") (some 0) false)
    ∧ getProductBySKU storeOnlyInactive "S"
        = Except.error (NotFoundError "Product with SKU" (some "S"))
    ∧ getProductByBarcode storeOnlyInactive "B"
        = Except.error (NotFoundError "Product with barcode" (some "B")) := by
  have H := soft_deleted_lookup_behaviour storeOnlyInactive
    (sampleProduct "a" "S" (some "B") (some 0) false) (by decide) (by decide) rfl
  exact ⟨H.1, H.2.2.1 (by decide), (H.2.2.2 "B" rfl).2 (by decide)⟩

end Gestor
